import Mathlib

/-!
Verification development for the budgie container orchestrator.

The definitions below are a shallow embedding of the Go sources:

* `internal/api/manager.go` — the container lifecycle manager
  (`ContainerManager.Create/Start/Stop/Remove`, `saveState`);
* the restart monitor (`RestartMonitor.shouldRestart`,
  `restartContainer`, `calculateBackoff`, `ResetRestartCount`);
* `internal/api/healthcheck.go` — the health monitor
  (`recordHealthCheck`, `handleUnhealthy`);
* `internal/proxy/loadbalancer.go` — the round-robin backend selection
  (`roundRobinSelect`);
* the volume synchroniser (`SendVolume`, `ReceiveVolume`, `needsUpdate`,
  `collectSignatures`, `quickChecksum`);
* the secret store (`SecretManager.CreateSecret`, `generateSecretID`,
  `encrypt`) and the network manager (`saveState`);
* `pkg/types/container.go` (`GenerateContainerID`, `ShortID`).

Go machine integers are modelled as `Int` with explicit two's-complement
wrapping (`wrap64`), durations as nanosecond counts, the `uint64`
round-robin counter as `Nat` reduced modulo `2 ^ 64`.  External effects
(the runtime, the RNG, file persistence) are passed in as explicit
parameters so every definition is executable.
-/

deriving instance DecidableEq for Except

namespace Budgie

/-- Container states, from `pkg/types/container.go` (StateCreating ... StateFailed). -/
inductive ContainerState where
  | creating
  | created
  | running
  | stopped
  | paused
  | failed
deriving DecidableEq, Repr

/-- Restart policy, from `pkg/types/container.go` (`RestartPolicy`): a policy
name string and the maximum retry count (Go `int`). -/
structure RestartPolicy where
  name : String
  maximumRetryCount : Int
deriving DecidableEq, Repr

/-- The fields of `types.Container` the lifecycle manager and its monitors
read or write.  Timestamps are nanosecond counts (Go `time.Time` compared
through `time.Since` / `UnixNano`).  Note the Go struct has no field
recording that a stop was user-invoked. -/
structure Container where
  id : String
  state : ContainerState
  restartPolicy : Option RestartPolicy
  restartCount : Int
  startedAt : Int
  exitedAt : Int
deriving DecidableEq, Repr

/-- Two's-complement wrap of an `Int` into the `int64` range, used wherever
Go `int`/`int64`/`time.Duration` arithmetic can overflow. -/
def wrap64 (x : Int) : Int :=
  (x + 2 ^ 63) % 2 ^ 64 - 2 ^ 63

/-- Go `1 << uint(n)` at type `int` (64-bit): converting a negative `n` to
`uint` yields a shift count of at least `2 ^ 63`, and any shift count of 64
or more shifts the bit out, so the result is `0` outside `0 ≤ n < 64`;
inside that range the result is `2 ^ n` wrapped to `int64`. -/
def goShl1 (n : Int) : Int :=
  if 0 ≤ n ∧ n < 64 then wrap64 (2 ^ n.toNat) else 0

/-- Nanoseconds in `time.Second`. -/
def nanosPerSecond : Int := 1000000000

/-- `RestartMonitor.maxBackoff`: 5 minutes, in nanoseconds. -/
def maxBackoff : Int := 5 * 60 * nanosPerSecond

/-- `RestartMonitor.calculateBackoff`: `time.Second * time.Duration(1 <<
uint(restartCount))` capped at `maxBackoff`.  The multiplication is Go
`int64` (`time.Duration`) arithmetic and wraps on overflow. -/
def calculateBackoff (restartCount : Int) : Int :=
  let backoff := wrap64 (nanosPerSecond * goShl1 restartCount)
  if backoff > maxBackoff then maxBackoff else backoff

/-- `ContainerManager.Start` (manager.go:64-89): requires state `created` or
`stopped`, asks the runtime to start (success modelled by `runtimeOk`), then
sets state `running` and records `StartedAt := now`.  It does not touch
`RestartCount`. -/
def managerStart (runtimeOk : Bool) (now : Int) (c : Container) :
    Except String Container :=
  if c.state ≠ ContainerState.created ∧ c.state ≠ ContainerState.stopped then
    Except.error "container is not in startable state"
  else if !runtimeOk then
    Except.error "failed to start container"
  else
    Except.ok { c with state := ContainerState.running, startedAt := now }

/-- `ContainerManager.Stop` (manager.go:91-116): requires state `running`,
asks the runtime to stop, then sets state `stopped` and `ExitedAt := now`.
No flag distinguishing a user-invoked stop is recorded anywhere. -/
def managerStop (runtimeOk : Bool) (now : Int) (c : Container) :
    Except String Container :=
  if c.state ≠ ContainerState.running then
    Except.error "container is not running"
  else if !runtimeOk then
    Except.error "failed to stop container"
  else
    Except.ok { c with state := ContainerState.stopped, exitedAt := now }

/-- `RestartMonitor.shouldRestart`: only `stopped`/`failed` containers with a
policy are considered; `no` never, `always` always, `on-failure` only while
the retry budget remains and the state is `failed`, `unless-stopped` always
(the source has no record of a user-invoked stop to consult). -/
def shouldRestart (c : Container) : Bool :=
  if c.state ≠ ContainerState.stopped ∧ c.state ≠ ContainerState.failed then
    false
  else
    match c.restartPolicy with
    | none => false
    | some rp =>
      if rp.name = "no" then false
      else if rp.name = "always" then true
      else if rp.name = "on-failure" then
        if rp.maximumRetryCount > 0 ∧ c.restartCount ≥ rp.maximumRetryCount then
          false
        else
          c.state = ContainerState.failed
      else if rp.name = "unless-stopped" then true
      else false

/-- `RestartMonitor.restartContainer`: if less than `calculateBackoff` has
elapsed since `ExitedAt` (`time.Since(ctr.ExitedAt) < backoff`), do nothing;
otherwise increment `RestartCount` (Go `int`, wrapping) and call
`ContainerManager.Start`; a `Start` error is only logged, leaving the
incremented count behind. -/
def restartContainer (runtimeOk : Bool) (now : Int) (c : Container) :
    Container :=
  let backoff := calculateBackoff c.restartCount
  if now - c.exitedAt < backoff then c
  else
    let bumped := { c with restartCount := wrap64 (c.restartCount + 1) }
    match managerStart runtimeOk now bumped with
    | Except.ok started => started
    | Except.error _ => bumped

/-- One restart-monitor step on one container (`checkContainers` body):
restart it when `shouldRestart` holds, else leave it alone. -/
def monitorCheck (runtimeOk : Bool) (now : Int) (c : Container) : Container :=
  if shouldRestart c then restartContainer runtimeOk now c else c

/-- `RestartMonitor.ResetRestartCount` sets the count to zero.  Its comment
says it is called on manual start, but no code in the repository calls it. -/
def resetRestartCount (c : Container) : Container :=
  { c with restartCount := 0 }

/-! Health monitor, `internal/api/healthcheck.go`. -/

/-- Health status strings from healthcheck.go. -/
inductive HealthStatus where
  | starting
  | healthy
  | unhealthy
deriving DecidableEq, Repr

/-- `ContainerHealth`: the per-container status and failing streak. -/
structure ContainerHealth where
  status : HealthStatus
  failingStreak : Int
deriving DecidableEq, Repr

/-- `runHealthCheck` maps a probe outcome to the exit code it records: `0`
for an HTTP status in 200..299, `1` for anything else (including transport
errors, which record exit code 1 the same way). -/
def probeExitCode (statusCode : Int) : Int :=
  if 200 ≤ statusCode ∧ statusCode < 300 then 0 else 1

/-- The retries actually used by `recordHealthCheck`: a configured value of
`0` falls back to the default `3`. -/
def effectiveRetries (configured : Int) : Int :=
  if configured = 0 then 3 else configured

/-- `recordHealthCheck` (healthcheck.go:208-246) joined with
`handleUnhealthy` (healthcheck.go:248-262): exit code 0 clears the streak
and marks healthy; otherwise the streak is incremented and, once it reaches
`retries`, the status becomes unhealthy and the container state is set to
`failed`.  Returns the new health record and container state. -/
def recordHealthCheck (configuredRetries : Int) (h : ContainerHealth)
    (st : ContainerState) (exitCode : Int) : ContainerHealth × ContainerState :=
  let retries := effectiveRetries configuredRetries
  if exitCode = 0 then
    ({ status := HealthStatus.healthy, failingStreak := 0 }, st)
  else
    let streak := h.failingStreak + 1
    if streak ≥ retries then
      ({ status := HealthStatus.unhealthy, failingStreak := streak },
        ContainerState.failed)
    else
      ({ h with failingStreak := streak }, st)

/-! Reverse proxy, `internal/proxy/loadbalancer.go`. -/

/-- A proxy backend: URL, `active` flag, live-connection counter. -/
structure Backend where
  url : String
  active : Bool
  conns : Int
deriving DecidableEq, Repr

/-- The `uint64` modulus of the atomic selection counter. -/
def U64 : Nat := 2 ^ 64

/-- A backend pool: the backend list and the `atomic.Uint64` counter,
represented as a `Nat` kept below `U64`. -/
structure BackendPool where
  backends : List Backend
  current : Nat
deriving DecidableEq, Repr

/-- The active backends, in pool order (`roundRobinSelect` filters inactive
backends out first). -/
def activeBackends (pool : BackendPool) : List Backend :=
  pool.backends.filter (fun b => b.active)

/-- `ContainerProxy.roundRobinSelect` (loadbalancer.go:179-201): with no
backends or no active backend, nothing is selected; otherwise
`current := pool.current.Add(1) - 1` (post-increment in `uint64`
arithmetic) and the backend at `current % len(activeBackends)` is returned.
Returns the selection and the pool with its advanced counter. -/
def roundRobinSelect (pool : BackendPool) : Option Backend × BackendPool :=
  if pool.backends.isEmpty then (none, pool)
  else
    let active := activeBackends pool
    if active.isEmpty then (none, pool)
    else
      let newCur := (pool.current + 1) % U64
      let current := (newCur + (U64 - 1)) % U64
      let idx := current % active.length
      (active.get? idx, { pool with current := newCur })

/-- A run of consecutive round-robin selections, threading the counter. -/
def rrSelections (pool : BackendPool) : Nat → List (Option Backend)
  | 0 => []
  | n + 1 =>
    let sel := roundRobinSelect pool
    sel.1 :: rrSelections sel.2 n

/-! Volume synchroniser, package sync (`SendVolume` / `ReceiveVolume`). -/

/-- A file in a volume tree: its bytes and its modification time in
nanoseconds (`FileInfo.ModTime().UnixNano()`). -/
structure SFile where
  content : List Nat
  mtime : Int
deriving DecidableEq, Repr

/-- `FileSignature`: relative path, size, mtime nanoseconds, quick
checksum. -/
structure FileSignature where
  path : String
  size : Int
  modTime : Int
  checksum : List Nat
deriving DecidableEq, Repr

/-- `quickChecksum`: the first 1 KiB of the file followed by its last
1 KiB; for a file of at most 1 KiB the second read starts at EOF and
contributes nothing, so the checksum is the whole content. -/
def quickChecksum (content : List Nat) : List Nat :=
  if content.length > 1024 then
    content.take 1024 ++ content.drop (content.length - 1024)
  else
    content

/-- The signature `collectSignatures` builds for one walked file. -/
def signatureOf (path : String) (f : SFile) : FileSignature :=
  { path := path
    size := (f.content.length : Int)
    modTime := f.mtime
    checksum := quickChecksum f.content }

/-- `collectSignatures`: one signature per file of the walked source tree
(directories contribute nothing; the tree is given as its file list). -/
def collectSignatures (src : List (String × SFile)) : List FileSignature :=
  src.map (fun pf => signatureOf pf.1 pf.2)

/-- `needsUpdate` (receiver side): the local file is stale if it does not
exist, its size differs, or its mtime is strictly older than the remote
signature.  The checksum field is not consulted. -/
def needsUpdate (localFile : Option SFile) (sig : FileSignature) : Bool :=
  match localFile with
  | none => true
  | some f =>
    if (f.content.length : Int) ≠ sig.size then true
    else if f.mtime < sig.modTime then true
    else false

/-- The list of stale relative paths the receiver sends back
(`ReceiveVolume` lines 187-200): the paths of the incoming signatures whose
local copy `needsUpdate`. -/
def neededFiles (src : List (String × SFile)) (tgt : String → Option SFile) :
    List String :=
  ((collectSignatures src).filter (fun sig => needsUpdate (tgt sig.path) sig)).map
    (fun sig => sig.path)

/-- Look a path up in the source tree (the sender reads the file at
`filepath.Join(localPath, relPath)`). -/
def lookupTree (src : List (String × SFile)) (p : String) : Option SFile :=
  (src.find? (fun pf => pf.1 = p)).map (fun pf => pf.2)

/-- One sync pass: `SendVolume` on the source paired with `ReceiveVolume`
on the target.  Every needed path is overwritten with the source file's
bytes (`receiveFile` copies exactly `size` bytes into a freshly created
file, whose mtime becomes the write time `now`); every other path keeps the
target's file. -/
def syncPass (src : List (String × SFile)) (tgt : String → Option SFile)
    (now : Int) : String → Option SFile :=
  fun p =>
    if p ∈ neededFiles src tgt then
      (lookupTree src p).map (fun f => { content := f.content, mtime := now })
    else
      tgt p

/-! Randomness-consuming ID and nonce generation.  Each generator takes the
outcome of its `crypto/rand` read as an explicit argument: `Except.error`
models a failing OS RNG. -/

/-- How a generator ends: a produced value, an error returned to the
caller, or a Go panic. -/
inductive GenOutcome (A : Type) where
  | ok (value : A)
  | err (message : String)
  | panicked
deriving DecidableEq, Repr

/-- Whether the outcome is an error returned to the caller. -/
def GenOutcome.isErr {A : Type} : GenOutcome A → Bool
  | GenOutcome.err _ => true
  | _ => false

/-- Lower-case hex digit for a value below 16. -/
def hexChar (n : Nat) : Char :=
  if n < 10 then Char.ofNat (48 + n) else Char.ofNat (87 + n)

/-- Two hex digits of one byte. -/
def hexByte (b : Nat) : List Char :=
  [hexChar (b / 16 % 16), hexChar (b % 16)]

/-- `hex.EncodeToString` / `fmt.Sprintf` with the x verb on a byte slice. -/
def hexEncode (bytes : List Nat) : String :=
  String.mk ((bytes.map hexByte).flatten)

/-- The all-digit test `GenerateContainerID` applies to the first 12
characters of the candidate id. -/
def twelveAllNumeric (id : String) : Bool :=
  (id.toList.take 12).all (fun c => 48 ≤ c.toNat ∧ c.toNat ≤ 57)

/-- `types.GenerateContainerID` (container.go:114-137): draw 32 random
bytes; on an RNG error the function panics (`panic(err)`); otherwise it
hex-encodes the bytes and retries while the first 12 characters are all
digits.  The Go loop draws from the OS RNG unboundedly; here the sequence
of draws is an explicit list, and the model reports an error if it is
exhausted (unreachable for the claims below). -/
def generateContainerID : List (Except String (List Nat)) → GenOutcome String
  | [] => GenOutcome.err "entropy stream exhausted"
  | draw :: rest =>
    match draw with
    | Except.error _ => GenOutcome.panicked
    | Except.ok bytes =>
      let id := hexEncode bytes
      if twelveAllNumeric id then generateContainerID rest
      else GenOutcome.ok id

/-- `secrets.generateSecretID` (part_011:289-293): `rand.Read(b)` with the
error ignored, then the first 12 hex characters.  On an RNG failure the
zero-initialised buffer is formatted as if the read had succeeded. -/
def generateSecretID (draw : Except String (List Nat)) : GenOutcome String :=
  match draw with
  | Except.error _ => GenOutcome.ok ((hexEncode (List.replicate 16 0)).take 12)
  | Except.ok bytes => GenOutcome.ok ((hexEncode bytes).take 12)

/-- Nonce generation inside `SecretManager.encrypt` (part_011:209-227):
`io.ReadFull(rand.Reader, nonce)` whose error is returned to the caller;
on success `gcm.Seal(nonce, nonce, plaintext, nil)` appends the sealed
bytes to the nonce (the AES-GCM sealing itself is the library function, passed in abstractly as sealFn). -/
def secretEncrypt (sealFn : List Nat → List Nat → List Nat)
    (plaintext : List Nat) (draw : Except String (List Nat)) :
    Except String (List Nat) :=
  match draw with
  | Except.error e => Except.error e
  | Except.ok nonce => Except.ok (nonce ++ sealFn nonce plaintext)

/-! Secret store state, `SecretManager` (part_011). -/

/-- A stored secret: opaque id, name, the stored (encrypted, encoded)
payload, created/updated timestamps. -/
structure StoredSecret where
  id : String
  name : String
  data : List Nat
  createdAt : Int
  updatedAt : Int
deriving DecidableEq, Repr

/-- The in-memory map `sm.secrets`, keyed by name (Go map semantics). -/
def SecretMap : Type := String → Option StoredSecret

/-- Go map assignment. -/
def mapSet (m : SecretMap) (k : String) (v : StoredSecret) : SecretMap :=
  fun q => if q = k then some v else m q

/-- Go `delete` on a map. -/
def mapDelete (m : SecretMap) (k : String) : SecretMap :=
  fun q => if q = k then none else m q

/-- `SecretManager.CreateSecret` (part_011:75-107): fail on an existing
name; fail if encryption fails; otherwise insert the new entry, attempt
`saveState` (outcome `saveOk`), and on a save failure delete the
just-inserted entry and return an error.  Returns the resulting map and the
call's result. -/
def createSecret (secrets : SecretMap) (name : String)
    (encResult : Except String (List Nat)) (newId : String) (now : Int)
    (saveOk : Bool) : SecretMap × Except String StoredSecret :=
  match secrets name with
  | some _ => (secrets, Except.error "secret already exists")
  | none =>
    match encResult with
    | Except.error _ => (secrets, Except.error "failed to encrypt secret")
    | Except.ok enc =>
      let secret : StoredSecret :=
        { id := newId, name := name, data := enc, createdAt := now,
          updatedAt := now }
      let inserted := mapSet secrets name secret
      if saveOk then (inserted, Except.ok secret)
      else (mapDelete inserted name, Except.error "failed to save secret")

/-- `SecretManager.GetSecret` observes only the map entry for a name (the
decryption applies to the stored payload). -/
def getSecretEntry (secrets : SecretMap) (name : String) :
    Option StoredSecret :=
  secrets name

/-! Persistence routines: the filesystem operations each `saveState` and
each constructor performs, as written in the sources. -/

/-- A filesystem operation a persistence routine performs. -/
inductive FsOp where
  | writeFile (path : String) (perm : Nat)
  | mkdirAll (path : String) (perm : Nat)
  | rename (src : String) (dst : String)
deriving DecidableEq, Repr

/-- A write trace replaces `target` atomically when the final content of
`target` arrives by a rename (write-to-temp then rename); a direct
`WriteFile` of the target is not atomic. -/
def atomicReplacement (ops : List FsOp) (target : String) : Bool :=
  ops.any (fun op =>
    match op with
    | FsOp.rename _ dst => dst = target
    | _ => false)

/-- The permission a trace gives `target` at its `WriteFile`, if any. -/
def writePerm (ops : List FsOp) (target : String) : Option Nat :=
  (ops.findSome? (fun op =>
    match op with
    | FsOp.writeFile path perm => if path = target then some perm else none
    | _ => none))

/-- `ContainerManager.saveState` (manager.go:189-201):
`os.WriteFile(m.statePath, data, 0644)` and nothing else. -/
def containerSaveOps : List FsOp :=
  [FsOp.writeFile "state.json" 0o644]

/-- `NewContainerManager` (manager.go:24-40): `os.MkdirAll(dataDir, 0755)`. -/
def containerInitOps : List FsOp :=
  [FsOp.mkdirAll "data" 0o755]

/-- `NetworkManager.saveState` (part_013:308-320):
`os.WriteFile(nm.statePath, data, 0644)`. -/
def networkSaveOps : List FsOp :=
  [FsOp.writeFile "networks.json" 0o644]

/-- `NewNetworkManager` (part_013:34-59): `os.MkdirAll(dataDir, 0755)`. -/
def networkInitOps : List FsOp :=
  [FsOp.mkdirAll "data" 0o755]

/-- `SecretManager.saveState` (part_011:316-329):
`os.WriteFile(sm.statePath, data, 0600)`. -/
def secretSaveOps : List FsOp :=
  [FsOp.writeFile "secrets.json" 0o600]

/-- `NewSecretManager` (part_011:49-72): `os.MkdirAll(dataDir, 0700)`. -/
def secretInitOps : List FsOp :=
  [FsOp.mkdirAll "data" 0o700]

/-- The permission a trace gives the data directory at its `MkdirAll`. -/
def mkdirPerm (ops : List FsOp) : Option Nat :=
  (ops.findSome? (fun op =>
    match op with
    | FsOp.mkdirAll _ perm => some perm
    | _ => none))

/-! Concrete inputs used by the claim theorems below. -/

/-- A failed container under policy on-failure with retry budget remaining
(restart count 0 of maximum 2) whose exit happened at time 0. -/
def exFailedOnFailure : Container :=
  { id := "aaaabbbbccccdddd", state := ContainerState.failed,
    restartPolicy := some { name := "on-failure", maximumRetryCount := 2 },
    restartCount := 0, startedAt := 0, exitedAt := 0 }

/-- A running container under policy unless-stopped. -/
def exRunningUnlessStopped : Container :=
  { id := "eeeeffff00001111", state := ContainerState.running,
    restartPolicy := some { name := "unless-stopped", maximumRetryCount := 0 },
    restartCount := 0, startedAt := 0, exitedAt := 0 }

/-- The container of `exRunningUnlessStopped` right after a user-invoked
`Stop` at time 100. -/
def exUserStopped : Container :=
  { exRunningUnlessStopped with
    state := ContainerState.stopped,
    exitedAt := 100 }

/-- A stopped container carrying restart count 2 (accumulated by the
restart monitor before its last stop). -/
def exStoppedCount2 : Container :=
  { id := "2222333344445555", state := ContainerState.stopped,
    restartPolicy := none, restartCount := 2, startedAt := 0, exitedAt := 0 }

/-- A stopped container under policy always with restart count 34, exited
at time 0. -/
def exBackoff34 : Container :=
  { id := "6666777788889999", state := ContainerState.stopped,
    restartPolicy := some { name := "always", maximumRetryCount := 0 },
    restartCount := 34, startedAt := 0, exitedAt := 0 }

/-- Three active backends with distinct URLs. -/
def exBackendA : Backend := { url := "http backend a 8080", active := true, conns := 0 }

/-- Second example backend. -/
def exBackendB : Backend := { url := "http backend b 8080", active := true, conns := 0 }

/-- Third example backend. -/
def exBackendC : Backend := { url := "http backend c 8080", active := true, conns := 0 }

/-- A pool of the three active backends whose selection counter is about to
wrap around the `uint64` range. -/
def exPoolWrap : BackendPool :=
  { backends := [exBackendA, exBackendB, exBackendC], current := U64 - 2 }

/-- The same pool with a small counter value. -/
def exPoolStart : BackendPool :=
  { backends := [exBackendA, exBackendB, exBackendC], current := 5 }

/-- A health record with a failing streak of 2 under healthy status. -/
def exHealth : ContainerHealth :=
  { status := HealthStatus.healthy, failingStreak := 2 }

/-- A two-file source volume tree. -/
def exSrcTree : List (String × SFile) :=
  [("index.html", { content := [104, 101, 108, 108, 111, 10], mtime := 50 }),
   ("sub/data.txt", { content := [1, 2, 3], mtime := 60 })]

/-- A target tree holding a strict subset of the source: only `index.html`,
byte-identical but with an older mtime. -/
def exTgtTree : String → Option SFile :=
  fun p =>
    if p = "index.html" then
      some { content := [104, 101, 108, 108, 111, 10], mtime := 40 }
    else none

/-! Claim theorems. -/

/-- C1: the spec's failed → running edge driven by the restart policy does
not exist in the code.  For the failed container `exFailedOnFailure`
(policy on-failure, retry budget remaining, backoff of 1 s elapsed at time
`10 ^ 9`), the restart monitor decides to restart, but
`ContainerManager.Start` rejects state `failed` (it requires `created` or
`stopped`), so the pass leaves the container failed — with the restart
count already incremented. -/
theorem restart_monitor_cannot_start_failed :
    shouldRestart exFailedOnFailure = true ∧
    managerStart true (10 ^ 9) exFailedOnFailure =
      Except.error "container is not in startable state" ∧
    (monitorCheck true (10 ^ 9) exFailedOnFailure).state =
      ContainerState.failed ∧
    (monitorCheck true (10 ^ 9) exFailedOnFailure).restartCount = 1 := by
  decide

/-- C2: no in-memory user-stop flag exists — `ContainerManager.Stop` only
sets state `stopped` and `ExitedAt` — and `shouldRestart` returns true for
every stopped container under policy unless-stopped, so the restart monitor
restarts a container the user explicitly stopped (here: stopped at time
100, restarted by the pass at time `100 + 10 ^ 9`). -/
theorem unless_stopped_user_stop_restarted :
    managerStop true 100 exRunningUnlessStopped = Except.ok exUserStopped ∧
    shouldRestart exUserStopped = true ∧
    (monitorCheck true (100 + 10 ^ 9) exUserStopped).state =
      ContainerState.running := by
  decide

/-- C4: a manual `ContainerManager.Start` on a stopped container records
`StartedAt` but leaves `RestartCount` untouched (here it stays 2 instead of
being reset to zero); the reset lives only in the uncalled
`ResetRestartCount`. -/
theorem manual_start_keeps_restart_count :
    (managerStart true 555 exStoppedCount2).toOption.map Container.startedAt =
      some 555 ∧
    (managerStart true 555 exStoppedCount2).toOption.map Container.restartCount =
      some 2 ∧
    (resetRestartCount exStoppedCount2).restartCount = 0 := by
  decide

/-- C5 counterexample: the claim fails already at the container state file,
which `ContainerManager.saveState` writes with mode 0644 (not 0600), with
no atomic temp-file-and-rename replacement, into a data directory created
with mode 0755 (not 0700). -/
theorem persistence_claim_counterexample :
    ¬ (writePerm containerSaveOps "state.json" = some 0o600 ∧
       atomicReplacement containerSaveOps "state.json" = true ∧
       mkdirPerm containerInitOps = some 0o700) := by
  decide

/-- C5 amended: each persistence routine writes its single JSON file by a
direct whole-file `os.WriteFile` with no atomic replacement; secrets use
mode 0600 and directory mode 0700, while containers and networks use mode
0644 and directory mode 0755. -/
theorem persistence_modes_actual :
    writePerm containerSaveOps "state.json" = some 0o644 ∧
    atomicReplacement containerSaveOps "state.json" = false ∧
    mkdirPerm containerInitOps = some 0o755 ∧
    writePerm networkSaveOps "networks.json" = some 0o644 ∧
    atomicReplacement networkSaveOps "networks.json" = false ∧
    mkdirPerm networkInitOps = some 0o755 ∧
    writePerm secretSaveOps "secrets.json" = some 0o600 ∧
    atomicReplacement secretSaveOps "secrets.json" = false ∧
    mkdirPerm secretInitOps = some 0o700 := by
  decide

/-- C6: `calculateBackoff` computes `time.Second * (1 << restartCount)` in
`int64` arithmetic, which overflows to a negative duration at restart count
34; every elapsed time passes a negative backoff check, so the monitor
restarts `exBackoff34` immediately (at time 0, zero nanoseconds after its
exit) even though `min(2 ^ 34 s, 5 min)` is the full 5-minute cap. -/
theorem backoff_overflow_immediate_restart :
    calculateBackoff 34 = -1266874889709551616 ∧
    calculateBackoff 34 < 0 ∧
    maxBackoff = 300000000000 ∧
    (monitorCheck true 0 exBackoff34).state = ContainerState.running := by
  decide

/-- C9 counterexample: `GenerateContainerID` reacts to an error from the OS
RNG by panicking (`panic(err)`), not by returning an error to the
caller. -/
theorem rng_error_container_id_panics :
    generateContainerID [Except.error "rng failure"] = GenOutcome.panicked ∧
    (generateContainerID [Except.error "rng failure"]).isErr = false := by
  decide

/-- C9 amended: only the nonce generation inside `SecretManager.encrypt`
propagates an RNG error to its caller; `GenerateContainerID` panics on it,
and `generateSecretID` ignores it and returns the hex of its
zero-initialised buffer as if the read had succeeded. -/
theorem rng_error_outcomes (e : String)
    (sealFn : List Nat → List Nat → List Nat) (plaintext : List Nat)
    (rest : List (Except String (List Nat))) :
    secretEncrypt sealFn plaintext (Except.error e) = Except.error e ∧
    generateContainerID (Except.error e :: rest) = GenOutcome.panicked ∧
    generateSecretID (Except.error e) =
      generateSecretID (Except.ok (List.replicate 16 0)) := by
  exact ⟨rfl, rfl, rfl⟩

/-- C7: from a state that is not yet unhealthy and whose streak is below
the effective retries, a probe with a 2xx status resets the failing streak
to 0 and marks the container healthy without touching its state, and a
failing probe makes the container unhealthy with its state transitioned to
`failed` exactly when the streak reaches the retries. -/
theorem health_streak_threshold (r : Int) (h : ContainerHealth)
    (st : ContainerState) (statusCode : Int)
    (hstatus : h.status ≠ HealthStatus.unhealthy)
    (hstreak : h.failingStreak < effectiveRetries r) :
    (200 ≤ statusCode ∧ statusCode < 300 →
      recordHealthCheck r h st (probeExitCode statusCode) =
        ({ status := HealthStatus.healthy, failingStreak := 0 }, st)) ∧
    (¬ (200 ≤ statusCode ∧ statusCode < 300) →
      (((recordHealthCheck r h st (probeExitCode statusCode)).1.status =
          HealthStatus.unhealthy ∧
        (recordHealthCheck r h st (probeExitCode statusCode)).2 =
          ContainerState.failed) ↔
        h.failingStreak + 1 = effectiveRetries r)) := by
  constructor
  · intro h2xx
    simp [recordHealthCheck, probeExitCode, h2xx]
  · intro hfail
    have hcode : probeExitCode statusCode = 1 := by
      simp [probeExitCode, hfail]
    rw [hcode]
    unfold recordHealthCheck
    by_cases hge : h.failingStreak + 1 ≥ effectiveRetries r
    · have heq : h.failingStreak + 1 = effectiveRetries r := by omega
      simp [hge, heq]
    · have hne2 : h.failingStreak + 1 ≠ effectiveRetries r := by omega
      simp [hge, hne2, hstatus]

/-- Witness for the health threshold theorem: streak 2 of 3 retries under
a healthy status, probed with HTTP 500. -/
theorem health_streak_threshold_witness :
    (exHealth.status ≠ HealthStatus.unhealthy ∧
     exHealth.failingStreak < effectiveRetries 3) ∧
    ((200 ≤ (500 : Int) ∧ (500 : Int) < 300 →
      recordHealthCheck 3 exHealth ContainerState.running (probeExitCode 500) =
        ({ status := HealthStatus.healthy, failingStreak := 0 },
          ContainerState.running)) ∧
     (¬ (200 ≤ (500 : Int) ∧ (500 : Int) < 300) →
      (((recordHealthCheck 3 exHealth ContainerState.running
            (probeExitCode 500)).1.status = HealthStatus.unhealthy ∧
        (recordHealthCheck 3 exHealth ContainerState.running
            (probeExitCode 500)).2 = ContainerState.failed) ↔
        exHealth.failingStreak + 1 = effectiveRetries 3))) :=
  ⟨⟨by decide, by decide⟩,
    health_streak_threshold 3 exHealth ContainerState.running 500 (by decide)
      (by decide)⟩

/-- C10: when writing the secrets file fails, `CreateSecret` deletes the
just-inserted in-memory entry and returns an error, so the secrets map — the
state `GetSecret` and `ListSecrets` observe — is exactly what it was before
the call. -/
theorem create_secret_save_failure_rollback (secrets : SecretMap)
    (nm : String) (encResult : Except String (List Nat)) (newId : String)
    (now : Int) :
    (createSecret secrets nm encResult newId now false).1 = secrets ∧
    (createSecret secrets nm encResult newId now false).2.isOk = false := by
  unfold createSecret
  cases hs : secrets nm with
  | some s => exact ⟨rfl, rfl⟩
  | none =>
    cases encResult with
    | error e => exact ⟨rfl, rfl⟩
    | ok enc =>
      refine ⟨?_, rfl⟩
      funext q
      by_cases hq : q = nm
      · subst hq
        simp [mapDelete, hs]
      · simp [mapDelete, mapSet, hq]

/-- A source entry whose local copy is stale puts its path on the needed
list the receiver sends back. -/
theorem mem_neededFiles_of_stale (src : List (String × SFile))
    (tgt : String → Option SFile) (p : String) (f : SFile)
    (hmem : (p, f) ∈ src)
    (hupd : needsUpdate (tgt p) (signatureOf p f) = true) :
    p ∈ neededFiles src tgt := by
  unfold neededFiles collectSignatures
  refine List.mem_map.mpr ⟨signatureOf p f, ?_, rfl⟩
  refine List.mem_filter.mpr ⟨List.mem_map.mpr ⟨(p, f), hmem, rfl⟩, ?_⟩
  exact hupd

/-- A successful tree lookup comes from a member of the tree list. -/
theorem lookupTree_mem (src : List (String × SFile)) (p : String) (g : SFile)
    (h : lookupTree src p = some g) : (p, g) ∈ src := by
  unfold lookupTree at h
  cases hf : src.find? (fun pf => pf.1 = p) with
  | none => rw [hf] at h; cases h
  | some pf =>
    rw [hf] at h
    have h0 := List.find?_some hf
    have h1 : pf.1 = p := of_decide_eq_true h0
    have h2 : pf.2 = g := by simpa using h
    have hpair : pf = (p, g) := by
      cases pf
      simp only at h1 h2
      rw [h1, h2]
    have hmem := List.mem_of_find?_eq_some hf
    rwa [hpair] at hmem

/-- C3: sync round-trip.  If every file the target holds is byte-identical
to the source file at the same path (the target holds a content subset of
the source tree), then after one pass — `SendVolume` on the source paired
with `ReceiveVolume` on the target — the target holds exactly the source's
files with byte-identical contents: at every path the synced target's bytes
agree with the source's, and paths absent from the source stay absent. -/
theorem sync_round_trip (src : List (String × SFile))
    (tgt : String → Option SFile) (now : Int)
    (hsub : ∀ p f, tgt p = some f →
      ∃ g, lookupTree src p = some g ∧ f.content = g.content) :
    ∀ p, (syncPass src tgt now p).map SFile.content =
      (lookupTree src p).map SFile.content := by
  intro p
  unfold syncPass
  by_cases hp : p ∈ neededFiles src tgt
  · rw [if_pos hp]
    cases lookupTree src p <;> rfl
  · rw [if_neg hp]
    cases ht : tgt p with
    | some f =>
      obtain ⟨g, hg, hc⟩ := hsub p f ht
      rw [hg]
      simp [hc]
    | none =>
      cases hl : lookupTree src p with
      | none => rfl
      | some g =>
        exfalso
        apply hp
        refine mem_neededFiles_of_stale src tgt p g (lookupTree_mem src p g hl) ?_
        rw [ht]
        rfl

/-- The example target tree is a content subset of the example source. -/
theorem exTgtTree_subset : ∀ p f, exTgtTree p = some f →
    ∃ g, lookupTree exSrcTree p = some g ∧ f.content = g.content := by
  intro p f hf
  unfold exTgtTree at hf
  by_cases hp : p = "index.html"
  · subst hp
    rw [if_pos rfl] at hf
    refine ⟨{ content := [104, 101, 108, 108, 111, 10], mtime := 50 },
      by decide, ?_⟩
    cases hf
    rfl
  · rw [if_neg hp] at hf
    cases hf

/-- Witness for the sync round-trip: after the pass over the example trees,
the missing file has been copied and the present file kept, both
byte-identical to the source. -/
theorem sync_round_trip_witness :
    (syncPass exSrcTree exTgtTree 100 "sub/data.txt").map SFile.content =
      (lookupTree exSrcTree "sub/data.txt").map SFile.content ∧
    (syncPass exSrcTree exTgtTree 100 "index.html").map SFile.content =
      (lookupTree exSrcTree "index.html").map SFile.content :=
  ⟨sync_round_trip exSrcTree exTgtTree 100 exTgtTree_subset "sub/data.txt",
   sync_round_trip exSrcTree exTgtTree 100 exTgtTree_subset "index.html"⟩

/-- C8 counterexample: with the three fixed active backends of
`exPoolWrap` and the selection counter at `2 ^ 64 - 2`, the next 3
consecutive round-robin selections dispatch the first backend twice and
the second backend never — the `uint64` post-increment counter wraps
inside the window and `2 ^ 64` is not a multiple of 3. -/
theorem round_robin_wrap_counterexample :
    (activeBackends exPoolWrap).length = 3 ∧
    (rrSelections exPoolWrap 3).count (some exBackendB) = 0 ∧
    (rrSelections exPoolWrap 3).count (some exBackendA) = 2 := by
  decide

/-- The `uint64` post-increment `current.Add(1) - 1` recovers the
pre-increment counter value. -/
theorem postIncrement_eq (c : Nat) (hc : c < U64) :
    ((c + 1) % U64 + (U64 - 1)) % U64 = c := by
  have h1le : 1 ≤ U64 := by decide
  by_cases h1 : c + 1 < U64
  · rw [Nat.mod_eq_of_lt h1]
    have hstep : c + 1 + (U64 - 1) = c + U64 := by omega
    rw [hstep, Nat.add_mod_right]
    exact Nat.mod_eq_of_lt hc
  · have hceq : c + 1 = U64 := by omega
    rw [hceq, Nat.mod_self, Nat.zero_add]
    have hlt : U64 - 1 < U64 := by omega
    rw [Nat.mod_eq_of_lt hlt]
    omega

/-- Updating only the counter leaves the active backend list unchanged. -/
theorem activeBackends_setCurrent (pool : BackendPool) (x : Nat) :
    activeBackends { pool with current := x } = activeBackends pool := rfl

/-- While the counter does not wrap, a run of `n` round-robin selections
picks, at step `k`, the active backend at index `(current + k) mod` the
number of active backends. -/
theorem rrSelections_eq_map (n : Nat) :
    ∀ pool : BackendPool, pool.current + n ≤ U64 →
      activeBackends pool ≠ [] →
      rrSelections pool n = (List.range n).map (fun k =>
        (activeBackends pool).get?
          ((pool.current + k) % (activeBackends pool).length)) := by
  induction n with
  | zero => intro pool _ _; rfl
  | succ m ih =>
    intro pool hc hne
    have hbne : pool.backends.isEmpty = false := by
      cases hb : pool.backends with
      | nil =>
        exfalso
        apply hne
        unfold activeBackends
        rw [hb]
        rfl
      | cons x xs => rfl
    have hane : (activeBackends pool).isEmpty = false := by
      cases ha : activeBackends pool with
      | nil => exact absurd ha hne
      | cons x xs => rfl
    have hcur : pool.current < U64 := by omega
    have hsel : roundRobinSelect pool =
        ((activeBackends pool).get?
          (pool.current % (activeBackends pool).length),
          { pool with current := (pool.current + 1) % U64 }) := by
      unfold roundRobinSelect
      simp only [hbne, hane, Bool.false_eq_true, if_false]
      rw [postIncrement_eq pool.current hcur]
    have hstep : rrSelections pool (m + 1) =
        (roundRobinSelect pool).1 ::
          rrSelections (roundRobinSelect pool).2 m := rfl
    rw [hstep, hsel]
    rw [List.range_succ_eq_map, List.map_cons, List.map_map]
    by_cases hlast : pool.current + 1 < U64
    · have htail := ih { pool with current := (pool.current + 1) % U64 }
        (by
          show (pool.current + 1) % U64 + m ≤ U64
          rw [Nat.mod_eq_of_lt hlast]
          omega)
        (by rw [activeBackends_setCurrent]; exact hne)
      simp only [activeBackends_setCurrent] at htail
      rw [htail]
      congr 1
      apply List.map_congr_left
      intro k _
      have harg : (pool.current + 1) % U64 + k = pool.current + (k + 1) := by
        rw [Nat.mod_eq_of_lt hlast]
        omega
      simp only [Function.comp]
      rw [harg]
    · have hm : m = 0 := by omega
      subst hm
      rfl

/-- The residues `(c + k) mod N` for `k` below `N` are a permutation of
`0 .. N - 1`. -/
theorem shift_mod_range_perm (c N : Nat) (hN : 0 < N) :
    ((List.range N).map (fun k => (c + k) % N)).Perm (List.range N) := by
  have hnd : ((List.range N).map (fun k => (c + k) % N)).Nodup := by
    refine List.Nodup.map_on ?_ (List.nodup_range N)
    intro x hx y hy hxy
    rw [List.mem_range] at hx hy
    have hmeq : Nat.ModEq N (c + x) (c + y) := hxy
    have hmod := Nat.ModEq.add_left_cancel' c hmeq
    unfold Nat.ModEq at hmod
    rwa [Nat.mod_eq_of_lt hx, Nat.mod_eq_of_lt hy] at hmod
  have hsub : ((List.range N).map (fun k => (c + k) % N)) ⊆ List.range N := by
    intro a ha
    rw [List.mem_map] at ha
    obtain ⟨k, _, hk⟩ := ha
    rw [List.mem_range, ← hk]
    exact Nat.mod_lt _ hN
  refine (hnd.subperm hsub).perm_of_length_le ?_
  simp

/-- Mapping the optional indexing function over the index range of a list
recovers the list (under `some`). -/
theorem map_get?_range {α : Type} (A : List α) :
    (List.range A.length).map (fun j => A.get? j) = A.map some := by
  induction A with
  | nil => rfl
  | cons a as ih =>
    rw [List.length_cons, List.range_succ_eq_map, List.map_cons,
      List.map_map, List.map_cons]
    refine congrArg (fun t => some a :: t) ?_
    rw [← ih]
    apply List.map_congr_left
    intro k _
    rfl

/-- C8 amended: for a pool whose set of active backends is fixed and whose
`uint64` selection counter does not wrap during the window (counter + N at
most `2 ^ 64`), N consecutive round-robin selections dispatch each active
backend exactly once: the selection list is a permutation of the active
backend list. -/
theorem round_robin_each_once (pool : BackendPool)
    (hwrap : pool.current + (activeBackends pool).length ≤ U64)
    (hne : activeBackends pool ≠ []) :
    (rrSelections pool (activeBackends pool).length).Perm
      ((activeBackends pool).map some) := by
  have hN : 0 < (activeBackends pool).length := List.length_pos.mpr hne
  rw [rrSelections_eq_map (activeBackends pool).length pool hwrap hne]
  have hcomp : (List.range (activeBackends pool).length).map (fun k =>
      (activeBackends pool).get?
        ((pool.current + k) % (activeBackends pool).length)) =
      ((List.range (activeBackends pool).length).map (fun k =>
        (pool.current + k) % (activeBackends pool).length)).map
        (fun j => (activeBackends pool).get? j) := by
    rw [List.map_map]
    rfl
  rw [hcomp]
  have hperm := (shift_mod_range_perm pool.current
    (activeBackends pool).length hN).map
    (fun j => (activeBackends pool).get? j)
  rwa [map_get?_range] at hperm

/-- Witness for the round-robin theorem: the three-backend pool with
counter 5 dispatches each backend exactly once over 3 selections. -/
theorem round_robin_each_once_witness :
    (exPoolStart.current + (activeBackends exPoolStart).length ≤ U64 ∧
     activeBackends exPoolStart ≠ []) ∧
    (rrSelections exPoolStart (activeBackends exPoolStart).length).Perm
      ((activeBackends exPoolStart).map some) :=
  ⟨⟨by decide, by decide⟩,
    round_robin_each_once exPoolStart (by decide) (by decide)⟩

end Budgie
